import Mathlib

/-!
Verification of the tabular addressing and aggregation engine of the
turf-delivery / sales dashboard backend.

The definitions below are a shallow embedding of the Python sources:
  app/services/turf_delivery_service.py   (TurfDeliveryService)
  app/services/sales_service.py           (SalesService)
  app/services/google_sheets_service.py   (GoogleSheetsService, week naming)
  app/services/excel/weekly_sheet_parser.py (WeeklySheetParser)
  app/services/excel/excel_parser.py      (ExcelDeliveryRow)

Spreadsheet cells are modelled as `String` (the Sheets values API returns
rendered strings), money and areas as `ℚ`, and calendar dates as a record of
numerals with proleptic-Gregorian ordinal arithmetic, which is exactly the
arithmetic CPython's `datetime.date` uses.
-/

set_option maxRecDepth 8000
set_option maxHeartbeats 1000000

/-! ## Python string primitives -/

/-- Model of Python `str.strip()` (whitespace on both ends). -/
def pyStrip (s : String) : String :=
  String.mk (((s.toList.dropWhile Char.isWhitespace).reverse.dropWhile
    Char.isWhitespace).reverse)

/-- Model of Python `str.lower()` for the ASCII strings that occur here. -/
def pyLower (s : String) : String :=
  String.mk (s.toList.map Char.toLower)

/-- Model of Python `str.upper()` for the ASCII strings that occur here. -/
def pyUpper (s : String) : String :=
  String.mk (s.toList.map Char.toUpper)

/-- Model of Python `a.startswith(b)`. -/
def pyStartsWith (s p : String) : Bool :=
  decide (s.toList.take p.toList.length = p.toList)

/-- Digit list to value, most significant first (`acc` is the prefix value). -/
def digitsToNat : ℕ → List Char → ℕ
  | acc, [] => acc
  | acc, c :: cs => digitsToNat (acc * 10 + (c.toNat - '0'.toNat)) cs

/-- Model of Python `int(s)` on strings: optional surrounding whitespace,
optional sign, then a nonempty run of decimal digits; anything else raises
`ValueError` (modelled as `none`). -/
def pyInt (s : String) : Option ℤ :=
  let t := (pyStrip s).toList
  match t with
  | '-' :: ds =>
      if ds ≠ [] ∧ ds.all Char.isDigit then some (-(digitsToNat 0 ds : ℤ)) else none
  | '+' :: ds =>
      if ds ≠ [] ∧ ds.all Char.isDigit then some ((digitsToNat 0 ds : ℤ)) else none
  | ds =>
      if ds ≠ [] ∧ ds.all Char.isDigit then some ((digitsToNat 0 ds : ℤ)) else none

/-- Value of a digit run interpreted as the fractional part `0.d₁d₂…`. -/
def fracDigitsToRat : List Char → ℚ
  | [] => 0
  | c :: cs => ((c.toNat - '0'.toNat : ℕ) + fracDigitsToRat cs) / 10

/-- Model of Python `float(s)` on the plain decimal literals that occur in
sheet cells: optional surrounding whitespace, optional sign, digits with an
optional single decimal point (at least one digit overall).  Exponent forms
and `inf`/`nan` do not occur in this data and are modelled as failure. -/
def pyFloat (s : String) : Option ℚ :=
  let t := (pyStrip s).toList
  let core : List Char → Option ℚ := fun cs =>
    match cs.splitOn '.' with
    | [intPart] =>
        if intPart ≠ [] ∧ intPart.all Char.isDigit then
          some ((digitsToNat 0 intPart : ℚ))
        else none
    | [intPart, fracPart] =>
        if (intPart ≠ [] ∨ fracPart ≠ []) ∧ intPart.all Char.isDigit ∧
            fracPart.all Char.isDigit then
          some ((digitsToNat 0 intPart : ℚ) + fracDigitsToRat fracPart)
        else none
    | _ => none
  match t with
  | '-' :: cs => (core cs).map (fun q => -q)
  | '+' :: cs => core cs
  | cs => core cs

/-- Model of Python `int(float(s))`: truncation toward zero. -/
def ratTruncToInt (q : ℚ) : ℤ :=
  if 0 ≤ q then ⌊q⌋ else -⌊-q⌋

/-! ## Calendar model (CPython `datetime.date` arithmetic)

CPython represents a date as (year, month, day) and implements ordering,
`weekday()` and `timedelta` arithmetic through the proleptic Gregorian
ordinal (`date(1, 1, 1).toordinal() == 1`). -/

structure PyDate where
  year : ℕ
  month : ℕ
  day : ℕ
  deriving DecidableEq, Repr

/-- Gregorian leap-year rule. -/
def isLeap (y : ℕ) : Bool :=
  decide ((y % 4 = 0 ∧ y % 100 ≠ 0) ∨ y % 400 = 0)

/-- Days in a month (0 for an out-of-range month number). -/
def daysInMonth (y m : ℕ) : ℕ :=
  match m with
  | 1 => 31
  | 2 => if isLeap y then 29 else 28
  | 3 => 31
  | 4 => 30
  | 5 => 31
  | 6 => 30
  | 7 => 31
  | 8 => 31
  | 9 => 30
  | 10 => 31
  | 11 => 30
  | 12 => 31
  | _ => 0

/-- Days in year `y` strictly before month `m`. -/
def daysBeforeMonth (y : ℕ) : ℕ → ℕ
  | 0 => 0
  | 1 => 0
  | m + 1 => daysBeforeMonth y m + daysInMonth y m

/-- Days strictly before January 1 of year `y` (proleptic Gregorian). -/
def daysBeforeYear (y : ℕ) : ℕ :=
  365 * (y - 1) + (y - 1) / 4 + (y - 1) / 400 - (y - 1) / 100

/-- CPython `date.toordinal()`. -/
def toOrdinal (d : PyDate) : ℕ :=
  daysBeforeYear d.year + daysBeforeMonth d.year d.month + d.day

/-- CPython `date.weekday()`: Monday = 0 … Sunday = 6. -/
def pyWeekday (d : PyDate) : ℕ :=
  (toOrdinal d + 6) % 7

/-- The ranges `datetime.date` accepts. -/
def isValidDate (d : PyDate) : Prop :=
  1 ≤ d.year ∧ 1 ≤ d.month ∧ d.month ≤ 12 ∧ 1 ≤ d.day ∧
    d.day ≤ daysInMonth d.year d.month

instance (d : PyDate) : Decidable (isValidDate d) := by
  unfold isValidDate; infer_instance

/-- Model of CPython `date(year, month, day)`: `none` models `ValueError`. -/
def mkPyDate (y m d : ℕ) : Option PyDate :=
  if isValidDate ⟨y, m, d⟩ then some ⟨y, m, d⟩ else none

/-- The calendar day before `d`. -/
def prevDay (d : PyDate) : PyDate :=
  if 1 < d.day then ⟨d.year, d.month, d.day - 1⟩
  else if 1 < d.month then ⟨d.year, d.month - 1, daysInMonth d.year (d.month - 1)⟩
  else ⟨d.year - 1, 12, 31⟩

/-- The calendar day after `d`. -/
def nextDay (d : PyDate) : PyDate :=
  if d.day < daysInMonth d.year d.month then ⟨d.year, d.month, d.day + 1⟩
  else if d.month < 12 then ⟨d.year, d.month + 1, 1⟩
  else ⟨d.year + 1, 1, 1⟩

/-- Model of `d - timedelta(days = n)`. -/
def subDays (d : PyDate) : ℕ → PyDate
  | 0 => d
  | n + 1 => subDays (prevDay d) n

/-- Model of `d + timedelta(days = n)`. -/
def addDays (d : PyDate) : ℕ → PyDate
  | 0 => d
  | n + 1 => addDays (nextDay d) n

/-- CPython date ordering (lexicographic on the (y, m, d) triple, which for
valid dates agrees with ordinal order). -/
def dateLe (a b : PyDate) : Prop :=
  a.year < b.year ∨ (a.year = b.year ∧
    (a.month < b.month ∨ (a.month = b.month ∧ a.day ≤ b.day)))

instance (a b : PyDate) : Decidable (dateLe a b) := by
  unfold dateLe; infer_instance

def dateLt (a b : PyDate) : Prop :=
  a.year < b.year ∨ (a.year = b.year ∧
    (a.month < b.month ∨ (a.month = b.month ∧ a.day < b.day)))

instance (a b : PyDate) : Decidable (dateLt a b) := by
  unfold dateLt; infer_instance

/-- `strftime('%b')` month abbreviations. -/
def monthAbbrev (m : ℕ) : String :=
  match m with
  | 1 => "Jan" | 2 => "Feb" | 3 => "Mar" | 4 => "Apr"
  | 5 => "May" | 6 => "Jun" | 7 => "Jul" | 8 => "Aug"
  | 9 => "Sep" | 10 => "Oct" | 11 => "Nov" | 12 => "Dec"
  | _ => ""

/-- `strftime('%d')`: zero-padded day of month. -/
def pad2 (n : ℕ) : String :=
  if n < 10 then "0" ++ toString n else toString n

/-- `strftime('%b-%d')` as used for weekly sheet names. -/
def formatMonDD (d : PyDate) : String :=
  monthAbbrev d.month ++ "-" ++ pad2 d.day

/-- `TurfDeliveryService.get_week_tab_name` / `SalesService.get_week_tab_name`
/ `google_sheets_service.get_week_sheet_name`: subtract `weekday()` days to
reach the Monday of the week, then format as `%b-%d`. -/
def get_week_tab_name (target_date : PyDate) : String :=
  formatMonDD (subDays target_date (pyWeekday target_date))

/-! ## Shared write-operation model

A write operation is modelled as a pure function from the observable
environment (the spreadsheet tabs, the column-B cells used by the occupancy
check, and the shared `GoogleSheetsService._cache`) to a result plus its
effects: the list of cell updates issued to the Sheets API and the cache
contents after the call. -/

/-- One `values().update(...)` call. -/
structure CellUpdate where
  week_tab : String
  cols : String
  row : ℤ
  values : List String
  deriving DecidableEq, Repr

/-- Observable environment of a write operation. -/
structure SheetsEnv where
  available_weeks : List String
  cellB : ℤ → String
  cache : List (String × String)

/-- Result and effects of a write operation. -/
structure OpOutcome where
  success : Bool
  error_code : Option ℕ
  updates : List CellUpdate
  cache : List (String × String)

/-! ## TurfDeliveryService (app/services/turf_delivery_service.py) -/

namespace TurfDeliveryService

def TRUCKS : List String := ["TRUCK 1", "TRUCK 2"]

def DAYS : List String := ["Monday", "Tuesday", "Wednesday", "Thursday", "Friday"]

/-- `DAY_HEADER_ROWS`; `none` models a `KeyError` on an unknown day. -/
def DAY_HEADER_ROWS (day : String) : Option ℤ :=
  if day = "Monday" then some 1
  else if day = "Tuesday" then some 24
  else if day = "Wednesday" then some 47
  else if day = "Thursday" then some 70
  else if day = "Friday" then some 93
  else none

/-- `TRUCK_SLOT_OFFSETS`; `none` models a `KeyError` on an unknown truck. -/
def TRUCK_SLOT_OFFSETS (truck : String) : Option ℤ :=
  if truck = "TRUCK 1" then some 4
  else if truck = "TRUCK 2" then some 14
  else none

def SLOTS_PER_TRUCK : ℤ := 6

def EDITABLE_COLUMNS : List String := ["B", "C", "D", "E", "I", "J", "P"]

/-- `TurfDeliveryService.calculate_row_number`:
`DAY_HEADER_ROWS[day] + TRUCK_SLOT_OFFSETS[truck] + (slot - 1)`. -/
def calculate_row_number (day truck : String) (slot : ℤ) : Option ℤ :=
  match DAY_HEADER_ROWS day, TRUCK_SLOT_OFFSETS truck with
  | some day_base, some truck_offset => some (day_base + truck_offset + (slot - 1))
  | _, _ => none

/-- `TurfDeliveryService.update_delivery_field`.  A successful update clears
the whole `GoogleSheetsService` cache. -/
def update_delivery_field (env : SheetsEnv) (week_tab : String) (row_number : ℤ)
    (column value : String) : OpOutcome :=
  if column ∉ EDITABLE_COLUMNS then
    ⟨false, some 400, [], env.cache⟩
  else if week_tab ∉ env.available_weeks then
    ⟨false, some 404, [], env.cache⟩
  else
    ⟨true, none, [⟨week_tab, column, row_number, [value]⟩], []⟩

/-- `TurfDeliveryService.create_delivery`.  Validation happens before any
row computation or network call; a successful create clears the cache. -/
def create_delivery (env : SheetsEnv) (week_tab day truck : String) (slot : ℤ)
    (variety suburb service_type sqm_sold delivery_fee laying_fee : String) :
    OpOutcome :=
  if day ∉ DAYS then
    ⟨false, some 400, [], env.cache⟩
  else if truck ∉ TRUCKS then
    ⟨false, some 400, [], env.cache⟩
  else if slot < 1 ∨ SLOTS_PER_TRUCK < slot then
    ⟨false, some 400, [], env.cache⟩
  else
    let row_number := (calculate_row_number day truck slot).getD 0
    if week_tab ∉ env.available_weeks then
      ⟨false, some 404, [], env.cache⟩
    else
      let existing_variety := env.cellB row_number
      if existing_variety ≠ "" ∧ pyStrip existing_variety ≠ "" then
        ⟨false, some 409, [], env.cache⟩
      else
        let row_values := [toString slot, variety, suburb, service_type, sqm_sold]
        let fee_updates :=
          if delivery_fee ≠ "" ∨ laying_fee ≠ "" then
            [(⟨week_tab, "I:J", row_number, [delivery_fee, laying_fee]⟩ : CellUpdate)]
          else []
        ⟨true, none, ⟨week_tab, "A:E", row_number, row_values⟩ :: fee_updates, []⟩

/-- The shared tail of `delete_delivery` (week-tab check, then clearing
columns B..P of the row and the cache). -/
def finishDelete (env : SheetsEnv) (week_tab : String) (r : ℤ) : OpOutcome :=
  if week_tab ∉ env.available_weeks then
    ⟨false, some 404, [], env.cache⟩
  else
    ⟨true, none, [⟨week_tab, "B:P", r, List.replicate 15 ""⟩], []⟩

/-- `TurfDeliveryService.delete_delivery`.  When `row_number` is absent the
row is addressed by day + truck + slot, validated in that order (with
Python's `not day` also catching an empty string); a successful delete
clears the cache. -/
def delete_delivery (env : SheetsEnv) (week_tab : String) (row_number : Option ℤ)
    (day truck : Option String) (slot : Option ℤ) : OpOutcome :=
  match row_number with
  | some r => finishDelete env week_tab r
  | none =>
      let d := day.getD ""
      let t := truck.getD ""
      if d = "" ∨ t = "" ∨ slot = none then
        ⟨false, some 400, [], env.cache⟩
      else if d ∉ DAYS then
        ⟨false, some 400, [], env.cache⟩
      else if t ∉ TRUCKS then
        ⟨false, some 400, [], env.cache⟩
      else
        let s := slot.getD 0
        if s < 1 ∨ SLOTS_PER_TRUCK < s then
          ⟨false, some 400, [], env.cache⟩
        else
          finishDelete env week_tab ((calculate_row_number d t s).getD 0)

end TurfDeliveryService

/-! ## SalesService (app/services/sales_service.py) -/

/-- A fetched grid: rows of rendered cell strings ("" = empty/missing cell). -/
def Grid := List (List String)

/-- Python `round(q, 1)` uses round-half-to-even; modelled exactly on `ℚ`. -/
def pyRoundHalfEven (q : ℚ) : ℤ :=
  let n := ⌊q⌋
  let f := q - n
  if f < 1 / 2 then n
  else if 1 / 2 < f then n + 1
  else if n % 2 = 0 then n else n + 1

/-- `round(x, 1)`. -/
def pyRound1 (q : ℚ) : ℚ :=
  (pyRoundHalfEven (q * 10) : ℚ) / 10

namespace SalesService

def SALES_REPS : List String := ["GLEN", "GREAT REP", "ILAN"]

def DAYS : List String :=
  ["Monday", "Tuesday", "Wednesday", "Thursday", "Friday", "Saturday"]

def LEAD_SOURCES : List String :=
  ["Google", "Facebook", "Referral", "Vehicles", "Word of Mouth", "Other"]

/-- `DAY_HEADER_ROWS.get(day, 1)`. -/
def DAY_HEADER_ROWS (day : String) : ℕ :=
  if day = "Monday" then 1
  else if day = "Tuesday" then 31
  else if day = "Wednesday" then 61
  else if day = "Thursday" then 91
  else if day = "Friday" then 121
  else if day = "Saturday" then 151
  else 1

/-- `SLOTS_PER_DAY.get(day, 5)`. -/
def SLOTS_PER_DAY (day : String) : ℕ :=
  if day = "Saturday" then 3
  else if day ∈ DAYS then 5
  else 5

/-- `REP_SLOT_OFFSETS.get(rep, 4)`. -/
def REP_SLOT_OFFSETS (rep : String) : ℕ :=
  if rep = "GLEN" then 4
  else if rep = "GREAT REP" then 13
  else if rep = "ILAN" then 22
  else 4

/-- `SATURDAY_REP_SLOT_OFFSETS.get(rep, 4)`. -/
def SATURDAY_REP_SLOT_OFFSETS (rep : String) : ℕ :=
  if rep = "GLEN" then 4
  else if rep = "GREAT REP" then 10
  else if rep = "ILAN" then 16
  else 4

def EDITABLE_COLUMNS : List String := ["F", "G", "H", "J", "K", "L"]

/-- `SalesService.calculate_row_number`: day header row plus the (Saturday or
weekday) rep offset plus `slot - 1`. -/
def calculate_row_number (day rep : String) (slot : ℕ) : ℕ :=
  let day_base := DAY_HEADER_ROWS day
  let rep_offset :=
    if day = "Saturday" then SATURDAY_REP_SLOT_OFFSETS rep
    else REP_SLOT_OFFSETS rep
  day_base + rep_offset + (slot - 1)

/-- `SalesService.parse_boolean`: `value.strip().lower() == "yes"`. -/
def parse_boolean (v : String) : Bool :=
  decide (pyLower (pyStrip v) = "yes")

/-- `SalesService.parse_currency`: strip, drop `$`, `,` and spaces, then
`float(...)`, defaulting to 0.0 on an empty or unparsable string. -/
def parse_currency (v : String) : ℚ :=
  let cleaned :=
    String.mk ((pyStrip v).toList.filter fun c => ¬ (c = '$' ∨ c = ',' ∨ c = ' '))
  if cleaned = "" then 0 else (pyFloat cleaned).getD 0

/-- The `safe_get` helper used throughout `SalesService`:
`str(row[idx]) if idx < len(row) and row[idx] else ""`.  On string cells this
is exactly list lookup with default `""`. -/
def safe_get (row : List String) (idx : ℕ) : String :=
  row.getD idx ""

/-- `update_appointment_field`.  Note: unlike every turf write operation it
does NOT clear the `GoogleSheetsService` cache, and its validation failure
carries no `error_code`. -/
def update_appointment_field (env : SheetsEnv) (week_tab : String)
    (row_number : ℤ) (column value : String) : OpOutcome :=
  if pyUpper column ∉ EDITABLE_COLUMNS then
    ⟨false, none, [], env.cache⟩
  else
    ⟨true, none, [⟨week_tab, pyUpper column, row_number, [value]⟩], env.cache⟩

/-! ### get_weekly_stats: the per-week aggregation fold -/

structure RepTotals where
  set : ℕ
  confirmed : ℕ
  attended : ℕ
  sold : ℕ
  sales : ℚ
  deriving DecidableEq, Repr

def initRepTotals : RepTotals := ⟨0, 0, 0, 0, 0⟩

/-- The `by_rep` dict, whose keys are exactly `SALES_REPS`. -/
structure ByRep where
  glen : RepTotals
  greatRep : RepTotals
  ilan : RepTotals
  deriving DecidableEq, Repr

def updateRep (m : ByRep) (name : String) (f : RepTotals → RepTotals) : ByRep :=
  if name = "GLEN" then { m with glen := f m.glen }
  else if name = "GREAT REP" then { m with greatRep := f m.greatRep }
  else if name = "ILAN" then { m with ilan := f m.ilan }
  else m

structure DayTotals where
  attended : ℕ
  sold : ℕ
  deriving DecidableEq, Repr

/-- The `by_day` dict, whose keys are exactly `DAYS`. -/
structure ByDay where
  monday : DayTotals
  tuesday : DayTotals
  wednesday : DayTotals
  thursday : DayTotals
  friday : DayTotals
  saturday : DayTotals
  deriving DecidableEq, Repr

def updateDay (m : ByDay) (name : String) (f : DayTotals → DayTotals) : ByDay :=
  if name = "Monday" then { m with monday := f m.monday }
  else if name = "Tuesday" then { m with tuesday := f m.tuesday }
  else if name = "Wednesday" then { m with wednesday := f m.wednesday }
  else if name = "Thursday" then { m with thursday := f m.thursday }
  else if name = "Friday" then { m with friday := f m.friday }
  else if name = "Saturday" then { m with saturday := f m.saturday }
  else m

/-- The `lead_source_counts` dict, whose keys are exactly `LEAD_SOURCES`. -/
structure SourceCounts where
  google : ℕ
  facebook : ℕ
  referral : ℕ
  vehicles : ℕ
  wordOfMouth : ℕ
  other : ℕ
  deriving DecidableEq, Repr

/-- `if lead_source in lead_source_counts: +=1  elif lead_source: Other += 1`.
An empty lead-source string increments nothing. -/
def bumpSource (sc : SourceCounts) (src : String) : SourceCounts :=
  if src = "Google" then { sc with google := sc.google + 1 }
  else if src = "Facebook" then { sc with facebook := sc.facebook + 1 }
  else if src = "Referral" then { sc with referral := sc.referral + 1 }
  else if src = "Vehicles" then { sc with vehicles := sc.vehicles + 1 }
  else if src = "Word of Mouth" then { sc with wordOfMouth := sc.wordOfMouth + 1 }
  else if src = "Other" then { sc with other := sc.other + 1 }
  else if src ≠ "" then { sc with other := sc.other + 1 }
  else sc

def sourceSum (sc : SourceCounts) : ℕ :=
  sc.google + sc.facebook + sc.referral + sc.vehicles + sc.wordOfMouth + sc.other

structure WeekAgg where
  set : ℕ
  confirmed : ℕ
  attended : ℕ
  sold : ℕ
  salesTotal : ℚ
  byRep : ByRep
  byDay : ByDay
  sources : SourceCounts
  deriving DecidableEq, Repr

def initWeekAgg : WeekAgg :=
  ⟨0, 0, 0, 0, 0, ⟨initRepTotals, initRepTotals, initRepTotals⟩,
    ⟨⟨0, 0⟩, ⟨0, 0⟩, ⟨0, 0⟩, ⟨0, 0⟩, ⟨0, 0⟩, ⟨0, 0⟩⟩, ⟨0, 0, 0, 0, 0, 0⟩⟩

/-- The (day, rep, slot) iteration order of the triple loop in
`get_weekly_stats`: days outermost, then reps, then slots `1..num_slots`. -/
def salesCoords : List (String × String × ℕ) :=
  DAYS.flatMap fun day => SALES_REPS.flatMap fun rep =>
    (List.range (SLOTS_PER_DAY day)).map fun i => (day, rep, i + 1)

/-- One iteration of the `get_weekly_stats` triple loop, reading row
`calculate_row_number(day, rep, slot) - 1` of the fetched `A1:M180` grid. -/
def stepWeek (all_rows : Grid) (st : WeekAgg) (c : String × String × ℕ) :
    WeekAgg :=
  let row_number := calculate_row_number c.1 c.2.1 c.2.2
  let row_idx := row_number - 1
  if row_idx < all_rows.length then
    let row := all_rows.getD row_idx []
    let is_set := parse_boolean (safe_get row 3)
    let is_confirmed := parse_boolean (safe_get row 4)
    let is_attended := parse_boolean (safe_get row 5)
    let is_sold := parse_boolean (safe_get row 6)
    let lead_source := safe_get row 2
    let sell_price := parse_currency (safe_get row 9)
    { set := st.set + (if is_set then 1 else 0)
      confirmed := st.confirmed + (if is_confirmed then 1 else 0)
      attended := st.attended + (if is_attended then 1 else 0)
      sold := st.sold + (if is_sold then 1 else 0)
      salesTotal := st.salesTotal + (if is_sold then sell_price else 0)
      byRep := updateRep st.byRep c.2.1 fun r =>
        { set := r.set + (if is_set then 1 else 0)
          confirmed := r.confirmed + (if is_confirmed then 1 else 0)
          attended := r.attended + (if is_attended then 1 else 0)
          sold := r.sold + (if is_sold then 1 else 0)
          sales := r.sales + (if is_sold then sell_price else 0) }
      byDay := updateDay st.byDay c.1 fun dt =>
        { attended := dt.attended + (if is_attended then 1 else 0)
          sold := dt.sold + (if is_sold then 1 else 0) }
      sources := if is_set then bumpSource st.sources lead_source else st.sources }
  else st

/-- The raw accumulator state after the triple loop of `get_weekly_stats`. -/
def rawWeekAgg (g : Grid) : WeekAgg :=
  salesCoords.foldl (stepWeek g) initWeekAgg

structure RepStats where
  set : ℕ
  confirmed : ℕ
  attended : ℕ
  sold : ℕ
  sales : ℚ
  conversion_rate : ℚ
  deriving DecidableEq, Repr

/-- The per-rep conversion-rate computation at the end of
`get_weekly_stats`. -/
def finishRep (r : RepTotals) : RepStats :=
  ⟨r.set, r.confirmed, r.attended, r.sold, r.sales,
    if 0 < r.attended then pyRound1 ((r.sold : ℚ) / (r.attended : ℚ) * 100)
    else 0⟩

structure WeeklyStats where
  appointments_set : ℕ
  appointments_confirmed : ℕ
  in_homes_attended : ℕ
  jobs_sold : ℕ
  weekly_sales_total : ℚ
  conversion_rate : ℚ
  glen : RepStats
  greatRep : RepStats
  ilan : RepStats
  byDay : ByDay
  sources : SourceCounts
  deriving DecidableEq, Repr

/-- `SalesService.get_weekly_stats` for a fetched week grid (its pure
aggregation core; transport errors are outside the model). -/
def get_weekly_stats (g : Grid) : WeeklyStats :=
  let a := rawWeekAgg g
  ⟨a.set, a.confirmed, a.attended, a.sold, a.salesTotal,
    (if 0 < a.attended then pyRound1 ((a.sold : ℚ) / (a.attended : ℚ) * 100)
     else 0),
    finishRep a.byRep.glen, finishRep a.byRep.greatRep, finishRep a.byRep.ilan,
    a.byDay, a.sources⟩

/-! ### get_daily_schedule: one-day totals -/

structure DayScheduleCounts where
  total_set : ℕ
  total_confirmed : ℕ
  total_attended : ℕ
  total_sold : ℕ
  deriving DecidableEq, Repr

/-- The (rep, slot) iteration order of `get_daily_schedule`. -/
def dailyCoords (day : String) : List (String × ℕ) :=
  SALES_REPS.flatMap fun rep =>
    (List.range (SLOTS_PER_DAY day)).map fun i => (rep, i + 1)

/-- One iteration of `get_daily_schedule`: the fetched range starts at the
day header row, and an out-of-range relative row is an empty slot with all
flags false. -/
def stepDaily (all_rows : Grid) (day : String) (st : DayScheduleCounts)
    (c : String × ℕ) : DayScheduleCounts :=
  let row_number := calculate_row_number day c.1 c.2
  let relative_row := row_number - DAY_HEADER_ROWS day
  if relative_row < all_rows.length then
    let row := all_rows.getD relative_row []
    { total_set := st.total_set + (if parse_boolean (safe_get row 3) then 1 else 0)
      total_confirmed :=
        st.total_confirmed + (if parse_boolean (safe_get row 4) then 1 else 0)
      total_attended :=
        st.total_attended + (if parse_boolean (safe_get row 5) then 1 else 0)
      total_sold := st.total_sold + (if parse_boolean (safe_get row 6) then 1 else 0) }
  else st

structure DayScheduleTotals where
  total_set : ℕ
  total_confirmed : ℕ
  total_attended : ℕ
  total_sold : ℕ
  conversion_rate : ℚ
  deriving DecidableEq, Repr

/-- The raw counters of the `get_daily_schedule` loop. -/
def dailyCounts (all_rows : Grid) (day : String) : DayScheduleCounts :=
  (dailyCoords day).foldl (stepDaily all_rows day) ⟨0, 0, 0, 0⟩

/-- The `day_totals` computed by `get_daily_schedule` for one day grid. -/
def get_daily_schedule_totals (all_rows : Grid) (day : String) :
    DayScheduleTotals :=
  let t := dailyCounts all_rows day
  ⟨t.total_set, t.total_confirmed, t.total_attended, t.total_sold,
    if 0 < t.total_attended then
      pyRound1 ((t.total_sold : ℚ) / (t.total_attended : ℚ) * 100)
    else 0⟩

/-! ### Month / year aggregation over week sheets -/

structure PeriodRep where
  set : ℕ
  confirmed : ℕ
  attended : ℕ
  sold : ℕ
  deriving DecidableEq, Repr

structure PeriodAgg where
  set : ℕ
  confirmed : ℕ
  attended : ℕ
  sold : ℕ
  salesTotal : ℚ
  glen : PeriodRep
  greatRep : PeriodRep
  ilan : PeriodRep
  deriving DecidableEq, Repr

def initPeriodAgg : PeriodAgg :=
  ⟨0, 0, 0, 0, 0, ⟨0, 0, 0, 0⟩, ⟨0, 0, 0, 0⟩, ⟨0, 0, 0, 0⟩⟩

def addPeriodRep (p : PeriodRep) (r : RepStats) : PeriodRep :=
  ⟨p.set + r.set, p.confirmed + r.confirmed, p.attended + r.attended,
    p.sold + r.sold⟩

/-- The body of the per-week accumulation loop shared by `get_monthly_stats`
and `get_annual_stats`: totals and per-rep counts are added week by week. -/
def stepPeriod (st : PeriodAgg) (w : WeeklyStats) : PeriodAgg :=
  ⟨st.set + w.appointments_set, st.confirmed + w.appointments_confirmed,
    st.attended + w.in_homes_attended, st.sold + w.jobs_sold,
    st.salesTotal + w.weekly_sales_total,
    addPeriodRep st.glen w.glen, addPeriodRep st.greatRep w.greatRep,
    addPeriodRep st.ilan w.ilan⟩

/-- Folding the stats of the contributing week sheets, as both
`get_monthly_stats` and `get_annual_stats` do. -/
def aggregate_period (weeks : List Grid) : PeriodAgg :=
  (weeks.map get_weekly_stats).foldl stepPeriod initPeriodAgg

/-! ### get_available_weeks -/

/-- The regex `^[A-Z][a-z]{2}-\\d{2}$`. -/
def weekTitleMatches (t : String) : Bool :=
  match t.toList with
  | [a, b, c, h, d, e] =>
      a.isUpper && b.isLower && c.isLower && decide (h = '-') &&
        d.isDigit && e.isDigit
  | _ => false

/-- The `months` dict literal used in `SalesService`. -/
def monthsLookup (s : String) : Option ℕ :=
  if s = "Jan" then some 1 else if s = "Feb" then some 2
  else if s = "Mar" then some 3 else if s = "Apr" then some 4
  else if s = "May" then some 5 else if s = "Jun" then some 6
  else if s = "Jul" then some 7 else if s = "Aug" then some 8
  else if s = "Sep" then some 9 else if s = "Oct" then some 10
  else if s = "Nov" then some 11 else if s = "Dec" then some 12
  else none

/-- The tab-name → date inference inside `get_available_weeks`:
`months.get(month_str, 1)`, `int(day_str)`, year 2026 except December → 2025,
then `date(...)` (whose `ValueError` skips the tab). -/
def parseWeekTabDate (title : String) : Option PyDate :=
  match title.toList.splitOn '-' with
  | [mcs, dcs] =>
      let month := (monthsLookup (String.mk mcs)).getD 1
      match pyInt (String.mk dcs) with
      | none => none
      | some dz =>
          let day := dz.toNat
          let year0 := if 1 ≤ month then 2026 else 2025
          let year := if month = 12 then 2025 else year0
          mkPyDate year month day
  | _ => none

/-- The `(tab_date, title)` pairs collected by `get_available_weeks` before
filtering, in sheet order. -/
def availablePairs (titles : List String) : List (PyDate × String) :=
  titles.filterMap fun t =>
    if weekTitleMatches t then (parseWeekTabDate t).map fun d => (d, t)
    else none

def cutoff_date : PyDate := ⟨2026, 1, 5⟩

/-- The filter `d >= cutoff_date`. -/
def filteredPairs (titles : List String) : List (PyDate × String) :=
  (availablePairs titles).filter fun p => decide (dateLe cutoff_date p.1)

/-- Insertion step of `list.sort(key=..., reverse=True)`: descending by
date. -/
def insertByDateDesc (p : PyDate × String) :
    List (PyDate × String) → List (PyDate × String)
  | [] => [p]
  | q :: l => if dateLt q.1 p.1 then p :: q :: l else q :: insertByDateDesc p l

def sortByDateDesc (l : List (PyDate × String)) : List (PyDate × String) :=
  l.foldr insertByDateDesc []

/-- `SalesService.get_available_weeks` as a function of the spreadsheet's
tab titles. -/
def get_available_weeks (titles : List String) : List String :=
  (sortByDateDesc (filteredPairs titles)).map Prod.snd

/-- The week-selection predicate of `get_monthly_stats` (the loop body that
decides whether `week_tab` joins `weeks_in_month`). -/
def monthlyWeekPred (year month : ℕ) (week_tab : String) : Bool :=
  match week_tab.toList.splitOn '-' with
  | [mcs, dcs] =>
      let week_month := (monthsLookup (String.mk mcs)).getD 0
      match pyInt (String.mk dcs) with
      | none => false
      | some dz =>
          let week_day := dz.toNat
          if week_month = month then true
          else if week_month = month - 1 ∨ (month = 1 ∧ week_month = 12) then
            match mkPyDate (if week_month ≤ month then year else year - 1)
                week_month week_day with
            | some monday => decide ((addDays monday 4).month = month)
            | none => false
          else false
  | _ => false

/-- The `weeks_in_month` list of `get_monthly_stats`. -/
def get_monthly_weeks (titles : List String) (year month : ℕ) : List String :=
  (get_available_weeks titles).filter (monthlyWeekPred year month)

/-- `get_annual_stats` iterates over every available week. -/
def get_annual_weeks (titles : List String) : List String :=
  get_available_weeks titles

end SalesService

/-! ## WeeklySheetParser (app/services/excel/weekly_sheet_parser.py) -/

namespace WeeklySheetParser

def VALID_DAYS : List String :=
  ["Monday", "Tuesday", "Wednesday", "Thursday", "Friday"]

/-- `_safe_str`: `str(value).strip()` with `""` for a missing cell. -/
def safe_str (v : String) : String := pyStrip v

/-- `_safe_float`: blank → default; otherwise drop `,` and `$`, strip, and
`float(...)`, with the default on failure. -/
def safe_float (v : String) (default : ℚ) : ℚ :=
  if v = "" then default
  else
    (pyFloat (pyStrip (String.mk (v.toList.filter fun c =>
      ¬ (c = ',' ∨ c = '$'))))).getD default

/-- `_safe_int`: blank → default; otherwise `int(float(value))` (truncation
toward zero), with the default on failure. -/
def safe_int (v : String) (default : ℤ) : ℤ :=
  if v = "" then default
  else
    match pyFloat v with
    | some q => ratTruncToInt q
    | none => default

/-- `_is_day_header`: a nonempty first cell whose stripped value starts with
one of `VALID_DAYS` (first match wins). -/
def is_day_header (row : List String) : Option String :=
  match row with
  | [] => none
  | c0 :: _ =>
      if c0 = "" then none
      else VALID_DAYS.find? fun day => pyStartsWith (pyStrip c0) day

/-- `_is_day_value` (used by structure detection). -/
def is_day_value (v : String) : Option String :=
  VALID_DAYS.find? fun day =>
    decide (pyStrip v = day) || pyStartsWith (pyStrip v) day

/-- `_is_truck_header`: stripped, upper-cased first cell equal to
`TRUCK 1` / `TRUCK 2`, renamed to title case. -/
def is_truck_header (row : List String) : Option String :=
  match row with
  | [] => none
  | c0 :: _ =>
      if c0 = "" then none
      else
        let cell := pyUpper (pyStrip c0)
        if cell = "TRUCK 1" then some "Truck 1"
        else if cell = "TRUCK 2" then some "Truck 2"
        else none

/-- `_is_slot_row`: `int(row[0])` parses and lies in `1..6`. -/
def is_slot_row (row : List String) : Bool :=
  match row with
  | [] => false
  | c0 :: _ =>
      if c0 = "" then false
      else
        match pyInt c0 with
        | some slot => decide (1 ≤ slot ∧ slot ≤ 6)
        | none => false

/-- `_is_valid_service_type`. -/
def is_valid_service_type (v : String) : Bool :=
  pyUpper v = "SL" || pyUpper v = "SD" || pyUpper v = "P"

/-- `_detect_structure`: scan rows, skipping known non-data markers and day
headers; the first remaining row classifies the sheet, defaulting to
slot-first. -/
def detect_structure : List (List String) → String
  | [] => "slot_first"
  | row :: rest =>
      match row with
      | [] => detect_structure rest
      | c0 :: _ =>
          if c0 = "" then detect_structure rest
          else
            let cell := pyStrip c0
            if pyUpper cell ∈ ["TRUCK 1", "TRUCK 2", "SLOT", "DAY", "TOTALS", ""] then
              detect_structure rest
            else if ["monday -", "tuesday -", "wednesday -", "thursday -",
                "friday -"].any (fun p => pyStartsWith (pyLower cell) p) then
              detect_structure rest
            else
              let slotHit :=
                match pyInt cell with
                | some slot => decide (1 ≤ slot ∧ slot ≤ 6)
                | none => false
              if slotHit then "slot_first"
              else if (is_day_value cell).isSome then "day_first"
              else detect_structure rest

end WeeklySheetParser

/-- The `ExcelDeliveryRow` dataclass of app/services/excel/excel_parser.py.
Its fields are exactly `day, slot, variety, suburb, service_type, sqm_sold,
pallets, week_start_date` — it has NO `delivery_fee`, `laying_fee` or
`payment_status` fields. -/
structure ExcelDeliveryRow where
  day : String
  slot : ℤ
  variety : String
  suburb : String
  service_type : String
  sqm_sold : ℚ
  pallets : ℚ
  week_start_date : Option PyDate := none
  deriving DecidableEq, Repr

/-- `LAYING_COST_PER_SQM` of excel_parser.py. -/
def LAYING_COST_PER_SQM : ℚ := 220 / 100

/-- `ExcelDeliveryRow.laying_cost`: `$2.20/SQM`, only for service type SL. -/
def ExcelDeliveryRow.laying_cost (r : ExcelDeliveryRow) : ℚ :=
  if r.service_type = "SL" then
    (pyRoundHalfEven (r.sqm_sold * LAYING_COST_PER_SQM * 100) : ℚ) / 100
  else 0

/-- The record the parser ATTEMPTS to build: the `ExcelDeliveryRow` fields
plus the three extra keyword arguments the parser passes. -/
structure ExcelDeliveryRowExt extends ExcelDeliveryRow where
  delivery_fee : ℚ
  laying_fee : ℚ
  payment_status : Option String
  deriving DecidableEq, Repr

namespace WeeklySheetParser

/-- The constructor call
`ExcelDeliveryRow(day=…, …, delivery_fee=…, laying_fee=…, payment_status=…)`
in `_parse_slot_first_structure`.  The dataclass does not declare
`delivery_fee`, `laying_fee` or `payment_status`, so in Python this raises
`TypeError: unexpected keyword argument`, which the surrounding
`except Exception` swallows — the assembled record is never produced. -/
def emitAsWritten (_ : ExcelDeliveryRowExt) : Option ExcelDeliveryRowExt :=
  none

/-- The same constructor call as `emitAsWritten` but with the dataclass
extended by the three fields the call site expects — the evident one-line
intent of the code (and of the spec's parsing scenario). -/
def emitWithFieldsDeclared (r : ExcelDeliveryRowExt) : Option ExcelDeliveryRowExt :=
  some r

/-- State of the slot-first parsing loop. -/
structure ParseState where
  current_day : Option String
  current_truck : Option String
  in_data_section : Bool
  truck1 : List ExcelDeliveryRowExt
  truck2 : List ExcelDeliveryRowExt
  deriving DecidableEq, Repr

def initParseState : ParseState := ⟨none, none, false, [], []⟩

/-- `result[current_truck].append(delivery)` (the result dict has exactly
the keys `Truck 1` and `Truck 2`). -/
def appendToTruck (st : ParseState) (truck : String) (r : ExcelDeliveryRowExt) :
    ParseState :=
  if truck = "Truck 1" then { st with truck1 := st.truck1 ++ [r] }
  else if truck = "Truck 2" then { st with truck2 := st.truck2 ++ [r] }
  else st

/-- One iteration of the `_parse_slot_first_structure` loop, parameterized
by the emission step (`emitAsWritten` for the code as written). -/
def slotFirstStep (emit : ExcelDeliveryRowExt → Option ExcelDeliveryRowExt)
    (st : ParseState) (row : List String) : ParseState :=
  if row = [] then st
  else
    match is_day_header row with
    | some day_name =>
        { st with
            current_day := some day_name
            current_truck := none
            in_data_section := false }
    | none =>
        match is_truck_header row with
        | some truck_name =>
            { st with
                current_truck := some truck_name
                in_data_section := false }
        | none =>
            let c0 := row.headD ""
            if st.current_truck.isSome ∧ 2 ≤ row.length ∧
                pyLower (safe_str c0) = "slot" then
              { st with in_data_section := true }
            else if pyLower (safe_str c0) = "totals" then
              { st with in_data_section := false }
            else if st.in_data_section ∧ st.current_day.isSome ∧
                st.current_truck.isSome ∧ is_slot_row row then
              let slot := safe_int c0 0
              let variety := safe_str (row.getD 1 "")
              let suburb := safe_str (row.getD 2 "")
              let service_type := pyUpper (safe_str (row.getD 3 ""))
              let sqm_sold := safe_float (row.getD 4 "") 0
              let pallets := safe_float (row.getD 5 "") 0
              let delivery_fee := safe_float (row.getD 8 "") 0
              let laying_fee := safe_float (row.getD 9 "") 0
              let payment_status :=
                if safe_str (row.getD 15 "") = "" then none
                else some (safe_str (row.getD 15 ""))
              if sqm_sold ≤ 0 then st
              else
                let service_type2 :=
                  if service_type = "" ∨ ¬ is_valid_service_type service_type then
                    "SD"
                  else service_type
                match emit ⟨⟨st.current_day.getD "", slot,
                    (if variety = "" then "Unknown" else variety),
                    (if suburb = "" then "Unknown" else suburb),
                    service_type2, sqm_sold, pallets, none⟩,
                    delivery_fee, laying_fee, payment_status⟩ with
                | some r => appendToTruck st (st.current_truck.getD "") r
                | none => st
            else st

/-- `_parse_slot_first_structure` as written: every assembled record dies in
the `ExcelDeliveryRow(...)` call, so each data row is logged and dropped. -/
def parse_slot_first_structure (values : List (List String)) :
    List ExcelDeliveryRowExt × List ExcelDeliveryRowExt :=
  let st := values.foldl (slotFirstStep emitAsWritten) initParseState
  (st.truck1, st.truck2)

/-- `_parse_slot_first_structure` with the dataclass carrying the three
fields its constructor call passes (the intended behavior). -/
def parse_slot_first_intended (values : List (List String)) :
    List ExcelDeliveryRowExt × List ExcelDeliveryRowExt :=
  let st := values.foldl (slotFirstStep emitWithFieldsDeclared) initParseState
  (st.truck1, st.truck2)

end WeeklySheetParser

/-! ## Concrete inputs used by the claim theorems -/

/-- The spec scenario grid: day header, truck header, `Slot` column header,
one data row. -/
def slotFirstScenario : List (List String) :=
  [["Monday - Daily Turf Deliveries"], ["TRUCK 1"],
   ["Slot", "Variety", "Suburb", "Service Type", "SQM Sold", "Pallets"],
   ["1", "Empire Zoysia", "Pimpama", "SL", "100", "2"]]

/-- The record the scenario row describes. -/
def scenarioRecord : ExcelDeliveryRowExt :=
  ⟨⟨"Monday", 1, "Empire Zoysia", "Pimpama", "SL", 100, 2, none⟩, 0, 0, none⟩

/-- A week grid whose only occupied cell is row 5 (Monday / GLEN / slot 1)
with `appointment_set = "Yes"` and an empty lead-source cell. -/
def emptySourceGrid : Grid :=
  [[], [], [], [], ["", "", "", "Yes"]]

/-- An environment with one week tab, empty column-B cells, and a non-empty
shared cache. -/
def envWithCache : SheetsEnv :=
  ⟨["Jan-05"], fun _ => "", [("gsheets:weekly:Jan-05", "cached")]⟩

/-- An environment where the Monday / TRUCK 1 / slot 1 variety cell (row 5)
is occupied. -/
def envOccupied : SheetsEnv :=
  ⟨["Jan-05"], fun r => if r = 5 then "Sir Walter" else "", []⟩

/-! ### Derived per-coordinate predicates of the weekly-stats loop
(read directly off the loop body; used to state the aggregation claims) -/

namespace SalesService

/-- Whether the loop body at coordinate `c` sees a fetched row and counts it
as set. -/
def isVisibleSet (g : Grid) (c : String × String × ℕ) : Bool :=
  let row_idx := calculate_row_number c.1 c.2.1 c.2.2 - 1
  decide (row_idx < g.length) && parse_boolean (safe_get (g.getD row_idx []) 3)

/-- The lead-source string the loop body reads at coordinate `c`. -/
def srcOf (g : Grid) (c : String × String × ℕ) : String :=
  safe_get (g.getD (calculate_row_number c.1 c.2.1 c.2.2 - 1) []) 2

/-- Coordinates counted as set with a non-empty lead-source cell. -/
def countSetNonemptySource (g : Grid) : ℕ :=
  salesCoords.countP fun c => isVisibleSet g c && decide (srcOf g c ≠ "")

/-- Coordinates whose set-count lands in the `Other` bucket: lead source
literally `Other`, or non-empty and outside the known enumeration. -/
def countOtherBucket (g : Grid) : ℕ :=
  salesCoords.countP fun c =>
    isVisibleSet g c &&
      (decide (srcOf g c = "Other") ||
        (decide (srcOf g c ∉ LEAD_SOURCES) && decide (srcOf g c ≠ "")))

/-- `k` copies of one week's totals (the comparison value for the period
aggregation claim). -/
def scalePeriod (k : ℕ) (w : WeeklyStats) : PeriodAgg :=
  ⟨k * w.appointments_set, k * w.appointments_confirmed,
    k * w.in_homes_attended, k * w.jobs_sold, k * w.weekly_sales_total,
    ⟨k * w.glen.set, k * w.glen.confirmed, k * w.glen.attended, k * w.glen.sold⟩,
    ⟨k * w.greatRep.set, k * w.greatRep.confirmed, k * w.greatRep.attended,
      k * w.greatRep.sold⟩,
    ⟨k * w.ilan.set, k * w.ilan.confirmed, k * w.ilan.attended, k * w.ilan.sold⟩⟩

end SalesService

/-! ### Calendar lemmas -/

lemma daysInMonth_pos (y m : ℕ) (h1 : 1 ≤ m) (h2 : m ≤ 12) :
    1 ≤ daysInMonth y m := by
  interval_cases m <;> (simp [daysInMonth]; try split) <;> omega

lemma daysBeforeMonth_succ (y m : ℕ) (h1 : 1 ≤ m) :
    daysBeforeMonth y (m + 1) = daysBeforeMonth y m + daysInMonth y m := by
  cases m with
  | zero => omega
  | succ k => simp [daysBeforeMonth]

lemma daysBeforeMonth_twelve (y : ℕ) :
    daysBeforeMonth y 12 + 31 = 365 + (if isLeap y then 1 else 0) := by
  by_cases h : isLeap y <;>
    simp [daysBeforeMonth, daysInMonth, h]

lemma daysBeforeYear_succ (y : ℕ) (hy : 1 ≤ y) :
    daysBeforeYear (y + 1) = daysBeforeYear y + 365 + (if isLeap y then 1 else 0) := by
  unfold daysBeforeYear isLeap
  by_cases h4 : y % 4 = 0 <;> by_cases h100 : y % 100 = 0 <;>
    by_cases h400 : y % 400 = 0 <;> simp [h4, h100, h400] <;> omega

lemma toOrdinal_prevDay (d : PyDate) (hv : isValidDate d) (h2 : 2 ≤ toOrdinal d) :
    isValidDate (prevDay d) ∧ toOrdinal (prevDay d) + 1 = toOrdinal d := by
  obtain ⟨y, m, dd⟩ := d
  obtain ⟨hy, hm1, hm2, hd1, hd2⟩ := hv
  simp only at hy hm1 hm2 hd1 hd2
  unfold prevDay
  simp only
  split_ifs with hday hmon
  · refine ⟨⟨hy, hm1, hm2, by show 1 ≤ dd - 1; omega,
      by show dd - 1 ≤ daysInMonth y m; omega⟩, ?_⟩
    show toOrdinal ⟨y, m, dd - 1⟩ + 1 = toOrdinal ⟨y, m, dd⟩
    dsimp only [toOrdinal]
    omega
  · have hdeq : dd = 1 := by omega
    have hmlt : m - 1 + 1 = m := by omega
    have hsucc := daysBeforeMonth_succ y (m - 1) (by omega)
    rw [hmlt] at hsucc
    refine ⟨⟨hy, by show 1 ≤ m - 1; omega, by show m - 1 ≤ 12; omega,
      by show 1 ≤ daysInMonth y (m - 1)
         exact daysInMonth_pos y (m - 1) (by omega) (by omega),
      by show daysInMonth y (m - 1) ≤ daysInMonth y (m - 1); exact le_refl _⟩, ?_⟩
    show toOrdinal ⟨y, m - 1, daysInMonth y (m - 1)⟩ + 1 = toOrdinal ⟨y, m, dd⟩
    dsimp only [toOrdinal]
    omega
  · have hdeq : dd = 1 := by omega
    have hmeq : m = 1 := by omega
    subst hdeq hmeq
    have hdbm1 : ∀ z : ℕ, daysBeforeMonth z 1 = 0 := fun z => rfl
    have hy2 : 2 ≤ y := by
      by_contra hlt
      have hy1 : y = 1 := by omega
      subst hy1
      dsimp only [toOrdinal] at h2
      rw [hdbm1] at h2
      simp only [daysBeforeYear] at h2
      omega
    have hstep := daysBeforeYear_succ (y - 1) (by omega)
    have hyy : y - 1 + 1 = y := by omega
    rw [hyy] at hstep
    have h12 := daysBeforeMonth_twelve (y - 1)
    refine ⟨⟨by show 1 ≤ y - 1; omega, by show (1 : ℕ) ≤ 12; omega,
      by show (12 : ℕ) ≤ 12; omega, by show (1 : ℕ) ≤ 31; omega,
      by show (31 : ℕ) ≤ daysInMonth (y - 1) 12; simp [daysInMonth]⟩, ?_⟩
    show toOrdinal ⟨y - 1, 12, 31⟩ + 1 = toOrdinal ⟨y, 1, 1⟩
    dsimp only [toOrdinal]
    rw [hdbm1]
    omega

lemma toOrdinal_subDays (n : ℕ) :
    ∀ d : PyDate, isValidDate d → n < toOrdinal d →
      isValidDate (subDays d n) ∧ toOrdinal (subDays d n) = toOrdinal d - n := by
  induction n with
  | zero => intro d hv _; exact ⟨hv, rfl⟩
  | succ k ih =>
      intro d hv hlt
      have h2 : 2 ≤ toOrdinal d := by omega
      obtain ⟨hv', hord⟩ := toOrdinal_prevDay d hv h2
      have hk : k < toOrdinal (prevDay d) := by omega
      obtain ⟨hv'', hord''⟩ := ih (prevDay d) hv' hk
      refine ⟨hv'', ?_⟩
      simp only [subDays]
      omega

/-! ## Claim theorems -/

/-- Claim C1 (code bug): on the spec's slot-first scenario grid the layout
detector picks slot-first, but the parser as written yields NO record at all
— the `ExcelDeliveryRow(...)` call passes keyword arguments the dataclass
does not declare, so every data row raises `TypeError` and is dropped by the
blanket `except`.  With the three fields declared (the evident intent, and
what the claim describes) the same machine yields exactly the claimed record:
slot 1, day Monday, variety "Empire Zoysia", suburb "Pimpama", service type
"SL", sqm 100, for TRUCK 1 only. -/
theorem claim_C1_parse_scenario :
    WeeklySheetParser.detect_structure slotFirstScenario = "slot_first" ∧
    WeeklySheetParser.parse_slot_first_structure slotFirstScenario = ([], []) ∧
    WeeklySheetParser.parse_slot_first_intended slotFirstScenario =
      ([scenarioRecord], []) := by
  decide

/-- Claim C2: within each domain's layout tables the forward row mapping is
injective over all in-bounds coordinates — turf deliveries (5 days × 2
trucks × slots 1..6) and sales appointments (6 days × 3 reps × slots
1..`SLOTS_PER_DAY day`, i.e. 1..5 on weekdays and 1..3 on Saturday). -/
theorem claim_C2_row_mapping_injective :
    (∀ d₁ ∈ TurfDeliveryService.DAYS, ∀ t₁ ∈ TurfDeliveryService.TRUCKS,
      ∀ s₁ ∈ Finset.Icc (1 : ℤ) 6,
      ∀ d₂ ∈ TurfDeliveryService.DAYS, ∀ t₂ ∈ TurfDeliveryService.TRUCKS,
      ∀ s₂ ∈ Finset.Icc (1 : ℤ) 6,
      TurfDeliveryService.calculate_row_number d₁ t₁ s₁ =
        TurfDeliveryService.calculate_row_number d₂ t₂ s₂ →
      d₁ = d₂ ∧ t₁ = t₂ ∧ s₁ = s₂) ∧
    (∀ d₁ ∈ SalesService.DAYS, ∀ r₁ ∈ SalesService.SALES_REPS,
      ∀ s₁ ∈ Finset.Icc 1 (SalesService.SLOTS_PER_DAY d₁),
      ∀ d₂ ∈ SalesService.DAYS, ∀ r₂ ∈ SalesService.SALES_REPS,
      ∀ s₂ ∈ Finset.Icc 1 (SalesService.SLOTS_PER_DAY d₂),
      SalesService.calculate_row_number d₁ r₁ s₁ =
        SalesService.calculate_row_number d₂ r₂ s₂ →
      d₁ = d₂ ∧ r₁ = r₂ ∧ s₁ = s₂) := by
  constructor
  · decide
  · decide

/-- Witness for claim C2: both injectivity statements instantiated at
concrete in-bounds coordinates. -/
theorem claim_C2_row_mapping_injective_witness :
    ("Monday" = "Monday" ∧ "TRUCK 1" = "TRUCK 1" ∧ (1 : ℤ) = 1) ∧
    ("Saturday" = "Saturday" ∧ "ILAN" = "ILAN" ∧ (3 : ℕ) = 3) :=
  ⟨claim_C2_row_mapping_injective.1 "Monday" (by decide) "TRUCK 1" (by decide)
      1 (by decide) "Monday" (by decide) "TRUCK 1" (by decide) 1 (by decide)
      rfl,
    claim_C2_row_mapping_injective.2 "Saturday" (by decide) "ILAN" (by decide)
      3 (by decide) "Saturday" (by decide) "ILAN" (by decide) 3 (by decide)
      rfl⟩

/-- Claim C5: every conversion rate the aggregator produces — the weekly
totals rate, each per-rep rate, and the daily-schedule totals rate — equals
`round((sold / attended) * 100, 1)` when `attended > 0` and is exactly `0.0`
when `attended = 0`; the rate is total (never a division error, never
null). -/
theorem claim_C5_conversion_rate_guard (g : Grid) (day : String) :
    ((SalesService.get_weekly_stats g).conversion_rate =
      if 0 < (SalesService.rawWeekAgg g).attended then
        pyRound1 (((SalesService.rawWeekAgg g).sold : ℚ) /
          ((SalesService.rawWeekAgg g).attended : ℚ) * 100)
      else 0) ∧
    ((SalesService.get_weekly_stats g).glen.conversion_rate =
      if 0 < (SalesService.rawWeekAgg g).byRep.glen.attended then
        pyRound1 (((SalesService.rawWeekAgg g).byRep.glen.sold : ℚ) /
          ((SalesService.rawWeekAgg g).byRep.glen.attended : ℚ) * 100)
      else 0) ∧
    ((SalesService.get_weekly_stats g).greatRep.conversion_rate =
      if 0 < (SalesService.rawWeekAgg g).byRep.greatRep.attended then
        pyRound1 (((SalesService.rawWeekAgg g).byRep.greatRep.sold : ℚ) /
          ((SalesService.rawWeekAgg g).byRep.greatRep.attended : ℚ) * 100)
      else 0) ∧
    ((SalesService.get_weekly_stats g).ilan.conversion_rate =
      if 0 < (SalesService.rawWeekAgg g).byRep.ilan.attended then
        pyRound1 (((SalesService.rawWeekAgg g).byRep.ilan.sold : ℚ) /
          ((SalesService.rawWeekAgg g).byRep.ilan.attended : ℚ) * 100)
      else 0) ∧
    ((SalesService.get_daily_schedule_totals g day).conversion_rate =
      if 0 < (SalesService.dailyCounts g day).total_attended then
        pyRound1 (((SalesService.dailyCounts g day).total_sold : ℚ) /
          ((SalesService.dailyCounts g day).total_attended : ℚ) * 100)
      else 0) :=
  ⟨rfl, rfl, rfl, rfl, rfl⟩

/-- Claim C7: for any valid date, the week tab name is obtained by stepping
back `weekday()` days — the resulting anchor is a Monday (`weekday = 0`)
exactly `weekday(d)` days before `d` — formatted `%b-%d`; in particular
2026-01-07 (a Wednesday) maps to "Jan-05" and 2025-12-31 (a Wednesday) to
"Dec-29". -/
theorem claim_C7_week_tab_name (d : PyDate) (hv : isValidDate d)
    (hord : pyWeekday d < toOrdinal d) :
    (pyWeekday (subDays d (pyWeekday d)) = 0 ∧
      toOrdinal (subDays d (pyWeekday d)) + pyWeekday d = toOrdinal d ∧
      isValidDate (subDays d (pyWeekday d)) ∧
      get_week_tab_name d = formatMonDD (subDays d (pyWeekday d))) ∧
    get_week_tab_name ⟨2026, 1, 7⟩ = "Jan-05" ∧
    get_week_tab_name ⟨2025, 12, 31⟩ = "Dec-29" := by
  obtain ⟨hv2, hord2⟩ := toOrdinal_subDays (pyWeekday d) d hv hord
  refine ⟨⟨?_, ?_, hv2, rfl⟩, by decide, by decide⟩
  · unfold pyWeekday at *
    rw [hord2]
    omega
  · omega

/-- Witness for claim C7: the theorem applied at 2026-01-07. -/
theorem claim_C7_week_tab_name_witness :
    pyWeekday (subDays ⟨2026, 1, 7⟩ (pyWeekday ⟨2026, 1, 7⟩)) = 0 ∧
    get_week_tab_name ⟨2026, 1, 7⟩ = "Jan-05" :=
  ⟨(claim_C7_week_tab_name ⟨2026, 1, 7⟩ (by decide) (by decide)).1.1,
    (claim_C7_week_tab_name ⟨2026, 1, 7⟩ (by decide) (by decide)).2.1⟩

/-- Claim C3 counterexample: a successful sales `update_appointment_field`
leaves the shared sheet cache untouched — the claim's "every write operation
clears the entire cache" is false for this operation. -/
theorem claim_C3_counterexample :
    (SalesService.update_appointment_field envWithCache "Jan-05" 5 "F"
      "Yes").success = true ∧
    (SalesService.update_appointment_field envWithCache "Jan-05" 5 "F"
      "Yes").cache ≠ [] := by
  decide

/-- Claim C3 amended: the three turf write operations clear the entire
shared cache (every key, for every starting cache) after any successful
write, but the sales `update_appointment_field` never touches the cache. -/
theorem claim_C3_amended (env : SheetsEnv)
    (week_tab day truck column value variety suburb service_type sqm_sold
      delivery_fee laying_fee : String)
    (row_number slot : ℤ) (row? : Option ℤ) (day? truck? : Option String)
    (slot? : Option ℤ) :
    ((TurfDeliveryService.update_delivery_field env week_tab row_number column
        value).success = true →
      (TurfDeliveryService.update_delivery_field env week_tab row_number column
        value).cache = []) ∧
    ((TurfDeliveryService.create_delivery env week_tab day truck slot variety
        suburb service_type sqm_sold delivery_fee laying_fee).success = true →
      (TurfDeliveryService.create_delivery env week_tab day truck slot variety
        suburb service_type sqm_sold delivery_fee laying_fee).cache = []) ∧
    ((TurfDeliveryService.delete_delivery env week_tab row? day? truck?
        slot?).success = true →
      (TurfDeliveryService.delete_delivery env week_tab row? day? truck?
        slot?).cache = []) ∧
    (SalesService.update_appointment_field env week_tab row_number column
      value).cache = env.cache := by
  refine ⟨?_, ?_, ?_, ?_⟩
  · unfold TurfDeliveryService.update_delivery_field
    split_ifs <;> simp
  · unfold TurfDeliveryService.create_delivery
    split_ifs <;> (try simp) <;> (intro hs; split_ifs at hs ⊢ <;> simp_all)
  · unfold TurfDeliveryService.delete_delivery TurfDeliveryService.finishDelete
    cases row? <;> split_ifs <;> (try simp) <;>
      (intro hs; split_ifs at hs ⊢ <;> simp_all)
  · unfold SalesService.update_appointment_field
    split_ifs <;> simp

/-- Witness for claim C3 amended: a successful turf field update at a
concrete input clears a non-empty cache, while the sales update leaves it
alone. -/
theorem claim_C3_amended_witness :
    (TurfDeliveryService.update_delivery_field envWithCache "Jan-05" 5 "B"
      "Sir Walter").cache = [] ∧
    (SalesService.update_appointment_field envWithCache "Jan-05" 5 "F"
      "Yes").cache = envWithCache.cache :=
  ⟨(claim_C3_amended envWithCache "Jan-05" "Monday" "TRUCK 1" "B" "Sir Walter"
      "" "" "" "" "" "" 5 1 none none none none).1 (by decide),
    (claim_C3_amended envWithCache "Jan-05" "Monday" "TRUCK 1" "B" "Sir Walter"
      "" "" "" "" "" "" 5 1 none none none none).2.2.2⟩

/-- Claim C6: for any out-of-bounds slot (slot < 1 or slot > 6) both
`create_delivery` and `delete_delivery` addressed by day + truck + slot fail
with `error_code` 400, issue no cell update, and leave the cache (and hence
remote state) untouched. -/
theorem claim_C6_slot_bounds (env : SheetsEnv)
    (week_tab day truck variety suburb service_type sqm_sold delivery_fee
      laying_fee : String) (slot : ℤ) (day? truck? : Option String)
    (h : slot < 1 ∨ 6 < slot) :
    ((TurfDeliveryService.create_delivery env week_tab day truck slot variety
        suburb service_type sqm_sold delivery_fee laying_fee).success = false ∧
      (TurfDeliveryService.create_delivery env week_tab day truck slot variety
        suburb service_type sqm_sold delivery_fee laying_fee).error_code =
        some 400 ∧
      (TurfDeliveryService.create_delivery env week_tab day truck slot variety
        suburb service_type sqm_sold delivery_fee laying_fee).updates = [] ∧
      (TurfDeliveryService.create_delivery env week_tab day truck slot variety
        suburb service_type sqm_sold delivery_fee laying_fee).cache =
        env.cache) ∧
    ((TurfDeliveryService.delete_delivery env week_tab none day? truck?
        (some slot)).success = false ∧
      (TurfDeliveryService.delete_delivery env week_tab none day? truck?
        (some slot)).error_code = some 400 ∧
      (TurfDeliveryService.delete_delivery env week_tab none day? truck?
        (some slot)).updates = [] ∧
      (TurfDeliveryService.delete_delivery env week_tab none day? truck?
        (some slot)).cache = env.cache) := by
  have h6 : TurfDeliveryService.SLOTS_PER_TRUCK = 6 := rfl
  constructor
  · unfold TurfDeliveryService.create_delivery
    split_ifs with h1 h2 h3 <;> simp_all <;> omega
  · unfold TurfDeliveryService.delete_delivery
    dsimp only
    split_ifs with h1 h2 h3 h4 <;> simp_all <;> omega

/-- Witness for claim C6: slot 7 with otherwise valid arguments. -/
theorem claim_C6_slot_bounds_witness :
    (TurfDeliveryService.create_delivery envWithCache "Jan-05" "Monday"
      "TRUCK 1" 7 "" "" "" "" "" "").error_code = some 400 ∧
    (TurfDeliveryService.delete_delivery envWithCache "Jan-05" none
      (some "Monday") (some "TRUCK 1") (some 7)).error_code = some 400 :=
  ⟨(claim_C6_slot_bounds envWithCache "Jan-05" "Monday" "TRUCK 1" "" "" "" ""
      "" "" 7 (some "Monday") (some "TRUCK 1") (by decide)).1.2.1,
    (claim_C6_slot_bounds envWithCache "Jan-05" "Monday" "TRUCK 1" "" "" "" ""
      "" "" 7 (some "Monday") (some "TRUCK 1") (by decide)).2.2.1⟩

/-- Claim C9: when the occupancy check of `create_delivery` finds a
non-blank variety cell (column B) at the computed target row, the operation
fails with `error_code` 409 and issues no cell update. -/
theorem claim_C9_occupied_slot (env : SheetsEnv)
    (week_tab day truck variety suburb service_type sqm_sold delivery_fee
      laying_fee : String) (slot : ℤ)
    (hday : day ∈ TurfDeliveryService.DAYS)
    (htruck : truck ∈ TurfDeliveryService.TRUCKS)
    (hs1 : 1 ≤ slot) (hs2 : slot ≤ 6)
    (hweek : week_tab ∈ env.available_weeks)
    (hocc : pyStrip (env.cellB
      ((TurfDeliveryService.calculate_row_number day truck slot).getD 0)) ≠ "") :
    (TurfDeliveryService.create_delivery env week_tab day truck slot variety
      suburb service_type sqm_sold delivery_fee laying_fee).success = false ∧
    (TurfDeliveryService.create_delivery env week_tab day truck slot variety
      suburb service_type sqm_sold delivery_fee laying_fee).error_code =
      some 409 ∧
    (TurfDeliveryService.create_delivery env week_tab day truck slot variety
      suburb service_type sqm_sold delivery_fee laying_fee).updates = [] := by
  have h6 : TurfDeliveryService.SLOTS_PER_TRUCK = 6 := rfl
  have hne : env.cellB
      ((TurfDeliveryService.calculate_row_number day truck slot).getD 0) ≠ "" := by
    intro he
    rw [he] at hocc
    exact hocc rfl
  unfold TurfDeliveryService.create_delivery
  split_ifs with h1 h2 h3 h4 h5 <;> simp_all <;> omega

/-- Witness for claim C9: Monday / TRUCK 1 / slot 1 targets row 5, whose
variety cell is occupied in `envOccupied`. -/
theorem claim_C9_occupied_slot_witness :
    (TurfDeliveryService.create_delivery envOccupied "Jan-05" "Monday"
      "TRUCK 1" 1 "" "" "" "" "" "").error_code = some 409 :=
  (claim_C9_occupied_slot envOccupied "Jan-05" "Monday" "TRUCK 1" "" "" "" ""
    "" "" 1 (by decide) (by decide) (by decide) (by decide) (by decide)
    (by decide)).2.1

/-! ### Lemmas for the lead-source bucket accounting (claim C4) -/

lemma bumpSource_sourceSum (sc : SalesService.SourceCounts) (s : String) :
    SalesService.sourceSum (SalesService.bumpSource sc s) =
      SalesService.sourceSum sc + (if s = "" then 0 else 1) := by
  unfold SalesService.bumpSource SalesService.sourceSum
  split_ifs <;> simp_all <;> omega

lemma bumpSource_other (sc : SalesService.SourceCounts) (s : String) :
    (SalesService.bumpSource sc s).other =
      sc.other +
        (if s = "Other" ∨ (s ∉ SalesService.LEAD_SOURCES ∧ s ≠ "") then 1
         else 0) := by
  unfold SalesService.bumpSource
  split_ifs <;> simp_all [SalesService.LEAD_SOURCES]

lemma stepWeek_sources (g : Grid) (st : SalesService.WeekAgg)
    (c : String × String × ℕ) :
    (SalesService.stepWeek g st c).sources =
      (if SalesService.isVisibleSet g c then
        SalesService.bumpSource st.sources (SalesService.srcOf g c)
       else st.sources) := by
  unfold SalesService.stepWeek SalesService.isVisibleSet SalesService.srcOf
  dsimp only
  by_cases hr : SalesService.calculate_row_number c.1 c.2.1 c.2.2 - 1 <
      g.length <;>
    by_cases hset : SalesService.parse_boolean (SalesService.safe_get
      (g.getD (SalesService.calculate_row_number c.1 c.2.1 c.2.2 - 1) []) 3) =
      true <;>
    simp [hr, hset]

lemma sourceSum_foldl_stepWeek (g : Grid) (l : List (String × String × ℕ)) :
    ∀ st : SalesService.WeekAgg,
      SalesService.sourceSum ((l.foldl (SalesService.stepWeek g) st).sources) =
        SalesService.sourceSum st.sources +
          l.countP (fun c =>
            SalesService.isVisibleSet g c ∧ SalesService.srcOf g c ≠ "") := by
  induction l with
  | nil => intro st; simp
  | cons c l ih =>
      intro st
      rw [List.foldl_cons, List.countP_cons, ih (SalesService.stepWeek g st c),
        stepWeek_sources]
      by_cases hv : SalesService.isVisibleSet g c
      · rw [if_pos hv, bumpSource_sourceSum]
        by_cases hs : SalesService.srcOf g c = "" <;> simp [hv, hs] <;> omega
      · simp [hv]

lemma other_foldl_stepWeek (g : Grid) (l : List (String × String × ℕ)) :
    ∀ st : SalesService.WeekAgg,
      ((l.foldl (SalesService.stepWeek g) st).sources).other =
        st.sources.other +
          l.countP (fun c =>
            SalesService.isVisibleSet g c ∧
              (SalesService.srcOf g c = "Other" ∨
                (SalesService.srcOf g c ∉ SalesService.LEAD_SOURCES ∧
                  SalesService.srcOf g c ≠ ""))) := by
  induction l with
  | nil => intro st; simp
  | cons c l ih =>
      intro st
      rw [List.foldl_cons, List.countP_cons, ih (SalesService.stepWeek g st c),
        stepWeek_sources]
      by_cases hv : SalesService.isVisibleSet g c
      · rw [if_pos hv, bumpSource_other]
        by_cases ho : SalesService.srcOf g c = "Other" ∨
            (SalesService.srcOf g c ∉ SalesService.LEAD_SOURCES ∧
              SalesService.srcOf g c ≠ "") <;> simp [hv, ho] <;> omega
      · simp [hv]

/-- Claim C4 counterexample: a set appointment whose lead-source cell is
empty is counted in `appointments_set` but lands in no per-source bucket, so
the claimed equality "sum of per-source counts = appointments_set" fails. -/
theorem claim_C4_counterexample :
    ¬ (SalesService.sourceSum
        (SalesService.get_weekly_stats emptySourceGrid).sources =
      (SalesService.get_weekly_stats emptySourceGrid).appointments_set) := by
  decide

/-- Claim C4 amended: within `get_weekly_stats`, every set-counted
appointment with a NON-EMPTY lead-source string outside the known
enumeration is counted under the `Other` bucket, and the sum of all
per-source counts equals the number of set-counted appointments whose
lead-source cell is non-empty (set appointments with an empty lead-source
cell are counted in `appointments_set` but in no bucket). -/
theorem claim_C4_amended (g : Grid) :
    SalesService.sourceSum (SalesService.get_weekly_stats g).sources =
      SalesService.countSetNonemptySource g ∧
    (SalesService.get_weekly_stats g).sources.other =
      SalesService.countOtherBucket g := by
  constructor
  · show SalesService.sourceSum (SalesService.rawWeekAgg g).sources = _
    unfold SalesService.rawWeekAgg SalesService.countSetNonemptySource
    rw [sourceSum_foldl_stepWeek]
    simp [SalesService.initWeekAgg, SalesService.sourceSum]
  · show (SalesService.rawWeekAgg g).sources.other = _
    unfold SalesService.rawWeekAgg SalesService.countOtherBucket
    rw [other_foldl_stepWeek]
    simp [SalesService.initWeekAgg]

/-! ### Lemmas for period aggregation linearity (claim C8) -/

def addPeriodAgg (a b : SalesService.PeriodAgg) : SalesService.PeriodAgg :=
  ⟨a.set + b.set, a.confirmed + b.confirmed, a.attended + b.attended,
    a.sold + b.sold, a.salesTotal + b.salesTotal,
    ⟨a.glen.set + b.glen.set, a.glen.confirmed + b.glen.confirmed,
      a.glen.attended + b.glen.attended, a.glen.sold + b.glen.sold⟩,
    ⟨a.greatRep.set + b.greatRep.set, a.greatRep.confirmed + b.greatRep.confirmed,
      a.greatRep.attended + b.greatRep.attended, a.greatRep.sold + b.greatRep.sold⟩,
    ⟨a.ilan.set + b.ilan.set, a.ilan.confirmed + b.ilan.confirmed,
      a.ilan.attended + b.ilan.attended, a.ilan.sold + b.ilan.sold⟩⟩

lemma foldl_stepPeriod_replicate (w : SalesService.WeeklyStats) :
    ∀ (k : ℕ) (st : SalesService.PeriodAgg),
      (List.replicate k w).foldl SalesService.stepPeriod st =
        addPeriodAgg st (SalesService.scalePeriod k w) := by
  intro k
  induction k with
  | zero =>
      intro st
      obtain ⟨s1, s2, s3, s4, s5, ⟨a1, a2, a3, a4⟩, ⟨b1, b2, b3, b4⟩,
        ⟨c1, c2, c3, c4⟩⟩ := st
      simp [addPeriodAgg, SalesService.scalePeriod]
  | succ k ih =>
      intro st
      rw [List.replicate_succ, List.foldl_cons, ih]
      obtain ⟨s1, s2, s3, s4, s5, ⟨a1, a2, a3, a4⟩, ⟨b1, b2, b3, b4⟩,
        ⟨c1, c2, c3, c4⟩⟩ := st
      simp [addPeriodAgg, SalesService.scalePeriod, SalesService.stepPeriod,
        SalesService.addPeriodRep]
      and_intros <;> ring

/-- Claim C8: month/year aggregation is linear in the contributing weeks —
folding the aggregation over `k` identical week grids yields exactly `k`
times a single week's totals (overall counts and sales total, and each
rep's counts). -/
theorem claim_C8_period_linearity (k : ℕ) (g : Grid) :
    SalesService.aggregate_period (List.replicate k g) =
      SalesService.scalePeriod k (SalesService.get_weekly_stats g) := by
  unfold SalesService.aggregate_period
  rw [List.map_replicate, foldl_stepPeriod_replicate]
  obtain ⟨s1, s2, s3, s4, s5, ⟨a1, a2, a3, a4⟩, ⟨b1, b2, b3, b4⟩,
    ⟨c1, c2, c3, c4⟩⟩ := SalesService.scalePeriod k (SalesService.get_weekly_stats g)
  simp [addPeriodAgg, SalesService.initPeriodAgg]

/-! ### Lemmas for the available-weeks listing (claim C10) -/

lemma dateLt_to_le {a b : PyDate} (h : dateLt a b) : dateLe a b := by
  unfold dateLt at h
  unfold dateLe
  omega

lemma dateLe_of_not_lt {a b : PyDate} (h : ¬ dateLt a b) : dateLe b a := by
  unfold dateLt at h
  unfold dateLe
  omega

lemma dateLe_trans' {a b c : PyDate} (h1 : dateLe a b) (h2 : dateLe b c) :
    dateLe a c := by
  unfold dateLe at *
  omega

lemma mem_insertByDateDesc (p x : PyDate × String) :
    ∀ l, x ∈ SalesService.insertByDateDesc p l ↔ x = p ∨ x ∈ l := by
  intro l
  induction l with
  | nil => simp [SalesService.insertByDateDesc]
  | cons q l ih =>
      unfold SalesService.insertByDateDesc
      split_ifs <;> simp [ih] <;> tauto

lemma pairwise_insertByDateDesc (p : PyDate × String) :
    ∀ l, l.Pairwise (fun a b => dateLe b.1 a.1) →
      (SalesService.insertByDateDesc p l).Pairwise (fun a b => dateLe b.1 a.1) := by
  intro l
  induction l with
  | nil => simp [SalesService.insertByDateDesc]
  | cons q l ih =>
      intro h
      rcases List.pairwise_cons.mp h with ⟨hq, hl⟩
      unfold SalesService.insertByDateDesc
      split_ifs with hlt
      · refine List.pairwise_cons.mpr ⟨?_, h⟩
        intro x hx
        rcases List.mem_cons.mp hx with rfl | hx
        · exact dateLt_to_le hlt
        · exact dateLe_trans' (hq x hx) (dateLt_to_le hlt)
      · refine List.pairwise_cons.mpr ⟨?_, ih hl⟩
        intro x hx
        rcases (mem_insertByDateDesc p x l).mp hx with rfl | hx
        · exact dateLe_of_not_lt hlt
        · exact hq x hx

lemma pairwise_sortByDateDesc (l : List (PyDate × String)) :
    (SalesService.sortByDateDesc l).Pairwise (fun a b => dateLe b.1 a.1) := by
  induction l with
  | nil => simp [SalesService.sortByDateDesc]
  | cons p l ih => exact pairwise_insertByDateDesc p _ ih

lemma mem_sortByDateDesc (x : PyDate × String) (l : List (PyDate × String)) :
    x ∈ SalesService.sortByDateDesc l ↔ x ∈ l := by
  induction l with
  | nil => simp [SalesService.sortByDateDesc]
  | cons p l ih =>
      show x ∈ SalesService.insertByDateDesc p (SalesService.sortByDateDesc l) ↔ _
      rw [mem_insertByDateDesc]
      simp [ih]

lemma monthsLookup_getD_one_pos (s : String) :
    1 ≤ (SalesService.monthsLookup s).getD 1 := by
  unfold SalesService.monthsLookup
  split_ifs <;> simp

lemma parseWeekTabDate_year (t : String) (d : PyDate)
    (h : SalesService.parseWeekTabDate t = some d) :
    d.year = if d.month = 12 then 2025 else 2026 := by
  unfold SalesService.parseWeekTabDate at h
  cases hsplit : t.toList.splitOn '-' with
  | nil => rw [hsplit] at h; simp at h
  | cons mcs rest =>
      cases rest with
      | nil => rw [hsplit] at h; simp at h
      | cons dcs rest2 =>
          cases rest2 with
          | cons _ _ => rw [hsplit] at h; simp at h
          | nil =>
              rw [hsplit] at h
              dsimp only at h
              cases hpi : pyInt (String.mk dcs) with
              | none => rw [hpi] at h; simp at h
              | some dz =>
                  rw [hpi] at h
                  dsimp only at h
                  unfold mkPyDate at h
                  split_ifs at h with hval
                  all_goals first
                    | exact Option.noConfusion h
                    | (have hpos := monthsLookup_getD_one_pos (String.mk mcs)
                       injection h with hd
                       subst hd
                       dsimp only
                       split_ifs <;> simp_all)

lemma mem_availablePairs (titles : List String) (p : PyDate × String)
    (h : p ∈ SalesService.availablePairs titles) :
    SalesService.parseWeekTabDate p.2 = some p.1 := by
  unfold SalesService.availablePairs at h
  rcases List.mem_filterMap.mp h with ⟨t, _, hf⟩
  by_cases hm : SalesService.weekTitleMatches t
  · rw [if_pos hm] at hf
    rcases Option.map_eq_some'.mp hf with ⟨d, hd, hp⟩
    subst hp
    exact hd
  · rw [if_neg hm] at hf
    simp at hf

/-- Claim C10: every pair surviving `get_available_weeks`'s filter has an
inferred Monday date on or after the hard-coded cutoff 2026-01-05 and never
an inferred December (2025) month; the result is sorted by inferred date
most-recent-first; and the weeks used by the monthly and annual aggregations
are drawn from this list, so neither can include a week before the
cutoff. -/
theorem claim_C10_available_weeks (titles : List String) :
    (∀ p ∈ SalesService.sortByDateDesc (SalesService.filteredPairs titles),
      dateLe SalesService.cutoff_date p.1 ∧ p.1.month ≠ 12) ∧
    (SalesService.sortByDateDesc (SalesService.filteredPairs titles)).Pairwise
      (fun a b => dateLe b.1 a.1) ∧
    SalesService.get_available_weeks titles =
      (SalesService.sortByDateDesc (SalesService.filteredPairs titles)).map
        Prod.snd ∧
    (∀ (y m : ℕ) (t : String),
      t ∈ SalesService.get_monthly_weeks titles y m →
      t ∈ SalesService.get_available_weeks titles) ∧
    SalesService.get_annual_weeks titles =
      SalesService.get_available_weeks titles := by
  refine ⟨?_, pairwise_sortByDateDesc _, rfl, ?_, rfl⟩
  · intro p hp
    have hp2 := (mem_sortByDateDesc p _).mp hp
    have hmem := List.mem_filter.mp hp2
    have hle : dateLe SalesService.cutoff_date p.1 := of_decide_eq_true hmem.2
    refine ⟨hle, ?_⟩
    intro h12
    have hy := parseWeekTabDate_year p.2 p.1 (mem_availablePairs titles p hmem.1)
    rw [if_pos h12] at hy
    unfold dateLe SalesService.cutoff_date at hle
    dsimp only at hle
    omega
  · intro y m t ht
    exact List.mem_of_mem_filter ht

/-- Witness for claim C10: with tabs Jan-05, Dec-29 and Jan-12 present, the
pair for Jan-05 survives and satisfies the cutoff and non-December
conclusions. -/
theorem claim_C10_available_weeks_witness :
    dateLe SalesService.cutoff_date (⟨2026, 1, 5⟩ : PyDate) ∧
    (⟨2026, 1, 5⟩ : PyDate).month ≠ 12 :=
  (claim_C10_available_weeks ["Jan-05", "Dec-29", "Jan-12"]).1
    (⟨2026, 1, 5⟩, "Jan-05") (by decide)
